import Mathlib

/-!
Shallow embedding of `pygaze/_eyetracker/eyelogic/ELApi.py`, a ctypes
binding for the EyeLogic eye-tracking native library, together with
theorems settling the specification claims about it.

Modelling choices:
* The ctypes handle `c_lib` is a record (`CLib`) holding, for every native
  entry point, its currently configured argument/return-type signature
  (`FnSig`).  ctypes gives a freshly loaded function no `argtypes` and a
  default `restype` of `c_int`; that is `defaultSig`.
* The native functions themselves live outside the repository, so each
  adapter method takes the integer the native call returns as an explicit
  parameter (an oracle) and also reports the list of native entry points it
  invoked (the call trace).
* Python exceptions are `Except PyError`; the `Enum` constructor call
  `ELApi.ReturnConnect(v)` raises `ValueError` for a value that is not a
  member, embedded as `PyError.valueError v "ReturnConnect"`.
* ctypes `Structure._fields_` lists are embedded as `List (String × CType)`.
-/

/-- The ctypes type designators appearing in the module: scalar C types,
the two point structures, and the five callback function-pointer types. -/
inductive CType where
  | c_double
  | c_int64
  | c_int32
  | c_int
  | c_bool
  | c_char_p
  | elcPoint2d
  | elcPoint3d
  | sampleCb
  | connectionClosedCb
  | deviceConnectedCb
  | deviceDisconnectedCb
  | trackingStoppedCb
  deriving DecidableEq, Repr

/-- Field list of `ELCPoint2d(Structure)`: `[("x", c_double), ("y", c_double)]`. -/
def ELCPoint2d_fields : List (String × CType) :=
  [("x", CType.c_double), ("y", CType.c_double)]

/-- Field list of `ELCPoint3d(Structure)`. -/
def ELCPoint3d_fields : List (String × CType) :=
  [("x", CType.c_double), ("y", CType.c_double), ("z", CType.c_double)]

/-- Field list of `ELCGazeSample(Structure)`, in source order. -/
def ELCGazeSample_fields : List (String × CType) :=
  [("timestampMicroSec", CType.c_int64),
   ("index", CType.c_int32),
   ("porRaw", CType.elcPoint2d),
   ("porFiltered", CType.elcPoint2d),
   ("porLeft", CType.elcPoint2d),
   ("eyePositionLeft", CType.elcPoint3d),
   ("pupilRadiusLeft", CType.c_double),
   ("porRight", CType.elcPoint2d),
   ("eyePositionRight", CType.elcPoint3d),
   ("pupilRadiusRight", CType.c_double)]

/-- The configured ctypes signature of one native entry point:
`argtypes` (`none` while never assigned) and `restype`
(`none` models the Python value `None`, i.e. a void return). -/
structure FnSig where
  argtypes : Option (List CType)
  restype : Option CType
  deriving DecidableEq, Repr

/-- ctypes default for a freshly loaded function: no `argtypes` set,
`restype` defaulting to `c_int`. -/
def defaultSig : FnSig := { argtypes := none, restype := some CType.c_int }

/-- The loaded native library handle `c_lib`: per-entry-point configured
signatures for the eight entry points the module touches. -/
structure CLib where
  elInitApi : FnSig
  elDestroyApi : FnSig
  elConnect : FnSig
  elDisconnect : FnSig
  elIsConnected : FnSig
  elRequestTracking : FnSig
  elUnrequestTracking : FnSig
  elCalibrate : FnSig
  deriving DecidableEq, Repr

/-- The library handle right after a successful `WinDLL` load: every entry
point still has the ctypes default signature. -/
def initialCLib : CLib :=
  { elInitApi := defaultSig
    elDestroyApi := defaultSig
    elConnect := defaultSig
    elDisconnect := defaultSig
    elIsConnected := defaultSig
    elRequestTracking := defaultSig
    elUnrequestTracking := defaultSig
    elCalibrate := defaultSig }

/-- Python exceptions the module can raise: the `ValueError` of an `Enum`
constructor applied to a non-member integer (carrying the offending value
and the enum class name), the `AttributeError` of calling a method on
`None`, and the plain `Exception`s raised at module load time. -/
inductive PyError where
  | valueError (badValue : Int) (enumName : String)
  | attributeError (msg : String)
  | exception (msg : String)
  deriving DecidableEq, Repr

/-- A Python value as produced by a ctypes foreign call, determined by the
configured `restype`: `c_int` yields an `int`, `c_bool` a `bool`,
`restype = None` yields Python `None`. -/
inductive PyValue where
  | int (v : Int)
  | bool (b : Bool)
  | pyNone
  deriving DecidableEq, Repr

/-- ctypes conversion of a raw native integer result according to the
configured `restype`. -/
def convertRestype : Option CType → Int → PyValue
  | some CType.c_bool, v => PyValue.bool (v != 0)
  | none, _ => PyValue.pyNone
  | some _, v => PyValue.int v

/-- Module-level load sequence (lines 75-103 of the source): the dll path
is checked with `os.path.isfile` and a missing file raises an `Exception`;
then the `WinDLL` load is attempted inside a `try` whose bare `except`
re-raises a load-failure `Exception`.  Only a successful load yields the
library handle used by everything else. -/
def moduleLoad (dllFileExists : Bool) (nativeLoadSucceeds : Bool) :
    Except PyError CLib :=
  if !dllFileExists then
    Except.error (PyError.exception
      "WARNING: Could not find EyeLogic dll in its expected location")
  else if !nativeLoadSucceeds then
    Except.error (PyError.exception "WARNING: Failed to load")
  else
    Except.ok initialCLib

/-- The five callback slots passed to the constructor; each may be the
Python value `None` (modelled `none`) or a function pointer (modelled by
an opaque numeric token). -/
structure Callbacks where
  sampleCallback : Option Nat
  connectionClosedCallback : Option Nat
  deviceConnectedCallback : Option Nat
  deviceDisconnectedCallback : Option Nat
  trackingStoppedCallback : Option Nat
  deriving DecidableEq, Repr

namespace ELApi

/-- Return values of `connect()` (class `ELApi.ReturnConnect(Enum)`). -/
inductive ReturnConnect where
  | SUCCESS
  | NOT_INITED
  | ALREADY_CONNECTED
  | VERSION_MISMATCH
  | TIMEOUT
  deriving DecidableEq, Repr

/-- The native integer backing each `ReturnConnect` member. -/
def ReturnConnect.toInt : ReturnConnect → Int
  | ReturnConnect.SUCCESS => 0
  | ReturnConnect.NOT_INITED => 1
  | ReturnConnect.ALREADY_CONNECTED => 2
  | ReturnConnect.VERSION_MISMATCH => 3
  | ReturnConnect.TIMEOUT => 4

/-- The Python `Enum` call `ELApi.ReturnConnect(v)`: value lookup among the
members, raising `ValueError` when `v` is not a member value. -/
def ReturnConnect.ofInt (v : Int) : Except PyError ReturnConnect :=
  if v = 0 then Except.ok ReturnConnect.SUCCESS
  else if v = 1 then Except.ok ReturnConnect.NOT_INITED
  else if v = 2 then Except.ok ReturnConnect.ALREADY_CONNECTED
  else if v = 3 then Except.ok ReturnConnect.VERSION_MISMATCH
  else if v = 4 then Except.ok ReturnConnect.TIMEOUT
  else Except.error (PyError.valueError v "ReturnConnect")

/-- Return values of `requestTracking()` (class `ELApi.ReturnStart(Enum)`). -/
inductive ReturnStart where
  | SUCCESS
  | NOT_CONNECTED
  | DEVICE_MISSING
  | INVALID_FRAMERATE_MODE
  | ALREADY_RUNNING_DIFFERENT_FRAMERATE
  | FAILURE
  deriving DecidableEq, Repr

/-- The native integer backing each `ReturnStart` member. -/
def ReturnStart.toInt : ReturnStart → Int
  | ReturnStart.SUCCESS => 0
  | ReturnStart.NOT_CONNECTED => 1
  | ReturnStart.DEVICE_MISSING => 2
  | ReturnStart.INVALID_FRAMERATE_MODE => 3
  | ReturnStart.ALREADY_RUNNING_DIFFERENT_FRAMERATE => 4
  | ReturnStart.FAILURE => 5

/-- The Python `Enum` call `ELApi.ReturnStart(v)`. -/
def ReturnStart.ofInt (v : Int) : Except PyError ReturnStart :=
  if v = 0 then Except.ok ReturnStart.SUCCESS
  else if v = 1 then Except.ok ReturnStart.NOT_CONNECTED
  else if v = 2 then Except.ok ReturnStart.DEVICE_MISSING
  else if v = 3 then Except.ok ReturnStart.INVALID_FRAMERATE_MODE
  else if v = 4 then Except.ok ReturnStart.ALREADY_RUNNING_DIFFERENT_FRAMERATE
  else if v = 5 then Except.ok ReturnStart.FAILURE
  else Except.error (PyError.valueError v "ReturnStart")

/-- Return values of `calibrate()` (class `ELApi.ReturnCalibrate(Enum)`). -/
inductive ReturnCalibrate where
  | SUCCESS
  | NOT_CONNECTED
  | NOT_TRACKING
  | INVALID_CALIBRATION_MODE
  | ALREADY_CALIBRATING
  | FAILURE
  deriving DecidableEq, Repr

/-- The native integer backing each `ReturnCalibrate` member. -/
def ReturnCalibrate.toInt : ReturnCalibrate → Int
  | ReturnCalibrate.SUCCESS => 0
  | ReturnCalibrate.NOT_CONNECTED => 1
  | ReturnCalibrate.NOT_TRACKING => 2
  | ReturnCalibrate.INVALID_CALIBRATION_MODE => 3
  | ReturnCalibrate.ALREADY_CALIBRATING => 4
  | ReturnCalibrate.FAILURE => 5

/-- The Python `Enum` call `ELApi.ReturnCalibrate(v)`. -/
def ReturnCalibrate.ofInt (v : Int) : Except PyError ReturnCalibrate :=
  if v = 0 then Except.ok ReturnCalibrate.SUCCESS
  else if v = 1 then Except.ok ReturnCalibrate.NOT_CONNECTED
  else if v = 2 then Except.ok ReturnCalibrate.NOT_TRACKING
  else if v = 3 then Except.ok ReturnCalibrate.INVALID_CALIBRATION_MODE
  else if v = 4 then Except.ok ReturnCalibrate.ALREADY_CALIBRATING
  else if v = 5 then Except.ok ReturnCalibrate.FAILURE
  else Except.error (PyError.valueError v "ReturnCalibrate")

/-- `ELApi.__init__`: encodes `clientName` with `encode` (raising
`AttributeError` when `clientName` is `None`), configures `elInitApi`
signatures, calls `elInitApi` and DISCARDS its integer result.  Result:
the updated library state, the trace of native entry points called, and
the normal / exceptional outcome (`__init__` itself returns no value). -/
def init (lib : CLib) (clientName : Option String) (cbs : Callbacks)
    (nativeInitResult : Int) : CLib × List String × Except PyError Unit :=
  match clientName with
  | none =>
      (lib, [], Except.error
        (PyError.attributeError "NoneType object has no attribute encode"))
  | some _ =>
      let lib :=
        { lib with elInitApi :=
          { argtypes := some [CType.c_char_p, CType.sampleCb,
              CType.connectionClosedCb, CType.deviceConnectedCb,
              CType.deviceDisconnectedCb, CType.trackingStoppedCb]
            restype := some CType.c_int } }
      (lib, ["elInitApi"], Except.ok ())

/-- `ELApi.connect`: configures `elConnect` (`argtypes = []`,
`restype = c_int`), calls it, and feeds the returned integer to
`ELApi.ReturnConnect(...)`. -/
def connect (lib : CLib) (nativeResult : Int) :
    CLib × List String × Except PyError ReturnConnect :=
  let lib :=
    { lib with elConnect := { argtypes := some [], restype := some CType.c_int } }
  (lib, ["elConnect"], ReturnConnect.ofInt nativeResult)

/-- `ELApi.disconnect`: configures `elDisconnect` (`argtypes = []`,
`restype = None`) and calls it; returns nothing. -/
def disconnect (lib : CLib) : CLib × List String × Except PyError Unit :=
  let lib :=
    { lib with elDisconnect := { argtypes := some [], restype := none } }
  (lib, ["elDisconnect"], Except.ok ())

/-- `ELApi.isConnected`: as written in the source it assigns
`c_lib.elDisconnect.argtypes = []` and `c_lib.elDisconnect.restype = c_bool`
(note: `elDisconnect`, not `elIsConnected`) and then returns
`c_lib.elIsConnected()` — whose result is converted under `elIsConnected`'s
still-default `restype` of `c_int`. -/
def isConnected (lib : CLib) (nativeResult : Int) :
    CLib × List String × PyValue :=
  let lib :=
    { lib with elDisconnect :=
      { argtypes := some [], restype := some CType.c_bool } }
  (lib, ["elIsConnected"], convertRestype lib.elIsConnected.restype nativeResult)

/-- `ELApi.requestTracking`: configures `elRequestTracking`
(`argtypes = [c_int]`, `restype = c_int`), calls it with the frame-rate
mode index, and feeds the returned integer to `ELApi.ReturnStart(...)`. -/
def requestTracking (lib : CLib) (frameRateModeInd : Int) (nativeResult : Int) :
    CLib × List String × Except PyError ReturnStart :=
  let lib :=
    { lib with elRequestTracking :=
      { argtypes := some [CType.c_int], restype := some CType.c_int } }
  (lib, ["elRequestTracking"], ReturnStart.ofInt nativeResult)

/-- `ELApi.unrequestTracking`: configures `elUnrequestTracking`
(`argtypes = []`, `restype = None`) and calls it; returns nothing and has
no failure path. -/
def unrequestTracking (lib : CLib) : CLib × List String × Except PyError Unit :=
  let lib :=
    { lib with elUnrequestTracking := { argtypes := some [], restype := none } }
  (lib, ["elUnrequestTracking"], Except.ok ())

/-- `ELApi.calibrate`: configures `elCalibrate` (`argtypes = [c_int]`,
`restype = c_int`), calls it with the calibration mode index, and feeds the
returned integer to `ELApi.ReturnCalibrate(...)`. -/
def calibrate (lib : CLib) (calibrationModeInd : Int) (nativeResult : Int) :
    CLib × List String × Except PyError ReturnCalibrate :=
  let lib :=
    { lib with elCalibrate :=
      { argtypes := some [CType.c_int], restype := some CType.c_int } }
  (lib, ["elCalibrate"], ReturnCalibrate.ofInt nativeResult)

end ELApi

namespace ELApi

/-- Characterisation of the `ReturnConnect` enum lookup on the ok side. -/
theorem connect_ofInt_eq_ok (n : Int) (r : ReturnConnect) :
    ReturnConnect.ofInt n = Except.ok r ↔ n = ReturnConnect.toInt r := by
  unfold ReturnConnect.ofInt
  split_ifs with h0 h1 h2 h3 h4 <;> cases r <;>
    simp_all [ReturnConnect.toInt]

/-- Characterisation of the `ReturnConnect` enum lookup on the error side. -/
theorem connect_ofInt_eq_error (n : Int) :
    ReturnConnect.ofInt n = Except.error (PyError.valueError n "ReturnConnect")
      ↔ ¬(0 ≤ n ∧ n < 5) := by
  unfold ReturnConnect.ofInt
  split_ifs with h0 h1 h2 h3 h4 <;> simp <;> omega

/-- Characterisation of the `ReturnStart` enum lookup on the ok side. -/
theorem start_ofInt_eq_ok (n : Int) (r : ReturnStart) :
    ReturnStart.ofInt n = Except.ok r ↔ n = ReturnStart.toInt r := by
  unfold ReturnStart.ofInt
  split_ifs with h0 h1 h2 h3 h4 h5 <;> cases r <;>
    simp_all [ReturnStart.toInt]

/-- Characterisation of the `ReturnStart` enum lookup on the error side. -/
theorem start_ofInt_eq_error (n : Int) :
    ReturnStart.ofInt n = Except.error (PyError.valueError n "ReturnStart")
      ↔ ¬(0 ≤ n ∧ n < 6) := by
  unfold ReturnStart.ofInt
  split_ifs with h0 h1 h2 h3 h4 h5 <;> simp <;> omega

/-- Characterisation of the `ReturnCalibrate` enum lookup on the ok side. -/
theorem cal_ofInt_eq_ok (n : Int) (r : ReturnCalibrate) :
    ReturnCalibrate.ofInt n = Except.ok r ↔ n = ReturnCalibrate.toInt r := by
  unfold ReturnCalibrate.ofInt
  split_ifs with h0 h1 h2 h3 h4 h5 <;> cases r <;>
    simp_all [ReturnCalibrate.toInt]

/-- Characterisation of the `ReturnCalibrate` enum lookup on the error side. -/
theorem cal_ofInt_eq_error (n : Int) :
    ReturnCalibrate.ofInt n
        = Except.error (PyError.valueError n "ReturnCalibrate")
      ↔ ¬(0 ≤ n ∧ n < 6) := by
  unfold ReturnCalibrate.ofInt
  split_ifs with h0 h1 h2 h3 h4 h5 <;> simp <;> omega

/-- Existence of an ok decode for `ReturnConnect` happens exactly on the
documented code range 0..4. -/
theorem connect_ofInt_ok_iff_range (n : Int) :
    (∃ r, ReturnConnect.ofInt n = Except.ok r) ↔ (0 ≤ n ∧ n < 5) := by
  unfold ReturnConnect.ofInt
  split_ifs with h0 h1 h2 h3 h4 <;> simp <;> omega

/-- Existence of an ok decode for `ReturnStart` happens exactly on the
documented code range 0..5. -/
theorem start_ofInt_ok_iff_range (n : Int) :
    (∃ r, ReturnStart.ofInt n = Except.ok r) ↔ (0 ≤ n ∧ n < 6) := by
  unfold ReturnStart.ofInt
  split_ifs with h0 h1 h2 h3 h4 h5 <;> simp <;> omega

/-- Existence of an ok decode for `ReturnCalibrate` happens exactly on the
documented code range 0..5. -/
theorem cal_ofInt_ok_iff_range (n : Int) :
    (∃ r, ReturnCalibrate.ofInt n = Except.ok r) ↔ (0 ≤ n ∧ n < 6) := by
  unfold ReturnCalibrate.ofInt
  split_ifs with h0 h1 h2 h3 h4 h5 <;> simp <;> omega

end ELApi

namespace ELApi

/-- C1 (counterexample): the claim says no call to `connect` ever raises,
whatever integer the native entry point returns; but when `elConnect`
returns 5 the enum conversion `ELApi.ReturnConnect(5)` raises `ValueError`,
which escapes to the caller. -/
theorem C1_counterexample :
    (connect initialCLib 5).2.2
      = Except.error (PyError.valueError 5 "ReturnConnect") := by
  rfl

/-- C1 (amended): for `connect`, `requestTracking` and `calibrate`, a
native integer inside the documented code set is delivered to the caller
as an explicit result code with no exception, while a native integer
outside the documented set raises a `ValueError` from the enum conversion
(it is neither returned as a result code nor passed through silently). -/
theorem C1_amended_result_code_or_valueError :
    ∀ (lib : CLib) (modeInd n : Int),
      ((∃ r, (connect lib n).2.2 = Except.ok r) ↔ (0 ≤ n ∧ n < 5)) ∧
      ((connect lib n).2.2 = Except.error (PyError.valueError n "ReturnConnect")
        ↔ ¬(0 ≤ n ∧ n < 5)) ∧
      ((∃ r, (requestTracking lib modeInd n).2.2 = Except.ok r)
        ↔ (0 ≤ n ∧ n < 6)) ∧
      ((requestTracking lib modeInd n).2.2
          = Except.error (PyError.valueError n "ReturnStart")
        ↔ ¬(0 ≤ n ∧ n < 6)) ∧
      ((∃ r, (calibrate lib modeInd n).2.2 = Except.ok r)
        ↔ (0 ≤ n ∧ n < 6)) ∧
      ((calibrate lib modeInd n).2.2
          = Except.error (PyError.valueError n "ReturnCalibrate")
        ↔ ¬(0 ≤ n ∧ n < 6)) := by
  intro lib modeInd n
  exact ⟨connect_ofInt_ok_iff_range n,
         connect_ofInt_eq_error n,
         start_ofInt_ok_iff_range n,
         start_ofInt_eq_error n,
         cal_ofInt_ok_iff_range n,
         cal_ofInt_eq_error n⟩

/-- C1 (witness): concrete instances of the amended theorem, a documented
code (0) decoding to a result and an undocumented one (9) raising. -/
theorem C1_amended_witness :
    (∃ r, (connect initialCLib 0).2.2 = Except.ok r) ∧
    (connect initialCLib 9).2.2
      = Except.error (PyError.valueError 9 "ReturnConnect") :=
  ⟨(C1_amended_result_code_or_valueError initialCLib 0 0).1.mpr (by decide),
   ((C1_amended_result_code_or_valueError initialCLib 0 9).2.1).mpr (by decide)⟩

/-- C2 (code bug, evaluated at the failing input): `isConnected` on a fresh
library state is not side-effect-free and does not return a boolean.  It
reassigns the configured signature of the `elDisconnect` entry point
(`argtypes = []`, `restype = c_bool`), changing the library state, while
`elIsConnected` keeps its default `c_int` restype, so the value returned to
the caller is a raw Python `int`, not a `bool`. -/
theorem C2_isConnected_mutates_state :
    (isConnected initialCLib 1).1 ≠ initialCLib ∧
    (isConnected initialCLib 1).1.elDisconnect
      = { argtypes := some [], restype := some CType.c_bool } ∧
    initialCLib.elDisconnect
      = { argtypes := none, restype := some CType.c_int } ∧
    (isConnected initialCLib 1).1.elIsConnected = initialCLib.elIsConnected ∧
    (isConnected initialCLib 1).2.2 = PyValue.int 1 := by
  decide

/-- C3 (counterexample): a failed library load is not the only condition the
adapter reports by raising: with the library located and loaded perfectly
well, `calibrate` raises a `ValueError` when the native call returns the
undocumented code 6. -/
theorem C3_counterexample :
    moduleLoad true true = Except.ok initialCLib ∧
    (calibrate initialCLib 0 6).2.2
      = Except.error (PyError.valueError 6 "ReturnCalibrate") := by
  exact ⟨rfl, rfl⟩

/-- C3 (amended): if the dll file is missing at its expected location, or
present but failing to load, module import raises a process-level exception
and no library handle — the state every adapter operation consumes — ever
exists; only a fully successful load yields the handle.  (This is the only
LOAD-TIME raising condition; per-call protocol violations and a null
client name can also raise later.) -/
theorem C3_amended_load_failure_raises :
    ∀ (loadOk : Bool),
      moduleLoad false loadOk
        = Except.error (PyError.exception
            "WARNING: Could not find EyeLogic dll in its expected location") ∧
      moduleLoad true false
        = Except.error (PyError.exception "WARNING: Failed to load") ∧
      moduleLoad true true = Except.ok initialCLib := by
  intro loadOk
  exact ⟨rfl, rfl, rfl⟩

/-- C4: `connect` returns a result exactly when the native integer is one
of the documented codes, and the mapping is 0 ↦ SUCCESS, 1 ↦ NOT_INITED,
2 ↦ ALREADY_CONNECTED, 3 ↦ VERSION_MISMATCH, 4 ↦ TIMEOUT; since
`ReturnConnect` has exactly these five members, no other result value is
possible on normal return. -/
theorem C4_connect_code_mapping :
    ∀ (lib : CLib) (n : Int) (r : ReturnConnect),
      (connect lib n).2.2 = Except.ok r ↔ n = ReturnConnect.toInt r := by
  intro lib n r
  exact connect_ofInt_eq_ok n r

/-- C4 (witness): the native code 3 decodes to `VERSION_MISMATCH`. -/
theorem C4_connect_witness :
    (connect initialCLib 3).2.2 = Except.ok ReturnConnect.VERSION_MISMATCH :=
  (C4_connect_code_mapping initialCLib 3 ReturnConnect.VERSION_MISMATCH).mpr
    (by decide)

/-- C5: for every integer frame-rate mode index, `requestTracking` returns
a result exactly when the native integer is a documented code, mapped
0 ↦ SUCCESS, 1 ↦ NOT_CONNECTED, 2 ↦ DEVICE_MISSING,
3 ↦ INVALID_FRAMERATE_MODE, 4 ↦ ALREADY_RUNNING_DIFFERENT_FRAMERATE,
5 ↦ FAILURE; `ReturnStart` has exactly these six members. -/
theorem C5_requestTracking_code_mapping :
    ∀ (lib : CLib) (frameRateModeInd n : Int) (r : ReturnStart),
      (requestTracking lib frameRateModeInd n).2.2 = Except.ok r
        ↔ n = ReturnStart.toInt r := by
  intro lib frameRateModeInd n r
  exact start_ofInt_eq_ok n r

/-- C5 (witness): with mode index 7, native code 4 decodes to
`ALREADY_RUNNING_DIFFERENT_FRAMERATE`. -/
theorem C5_requestTracking_witness :
    (requestTracking initialCLib 7 4).2.2
      = Except.ok ReturnStart.ALREADY_RUNNING_DIFFERENT_FRAMERATE :=
  (C5_requestTracking_code_mapping initialCLib 7 4
    ReturnStart.ALREADY_RUNNING_DIFFERENT_FRAMERATE).mpr (by decide)

/-- C6: for every integer calibration mode index, `calibrate` returns a
result exactly when the native integer is a documented code, mapped
0 ↦ SUCCESS, 1 ↦ NOT_CONNECTED, 2 ↦ NOT_TRACKING,
3 ↦ INVALID_CALIBRATION_MODE, 4 ↦ ALREADY_CALIBRATING, 5 ↦ FAILURE;
`ReturnCalibrate` has exactly these six members. -/
theorem C6_calibrate_code_mapping :
    ∀ (lib : CLib) (calibrationModeInd n : Int) (r : ReturnCalibrate),
      (calibrate lib calibrationModeInd n).2.2 = Except.ok r
        ↔ n = ReturnCalibrate.toInt r := by
  intro lib calibrationModeInd n r
  exact cal_ofInt_eq_ok n r

/-- C6 (witness): with mode index 2, native code 4 decodes to
`ALREADY_CALIBRATING`. -/
theorem C6_calibrate_witness :
    (calibrate initialCLib 2 4).2.2
      = Except.ok ReturnCalibrate.ALREADY_CALIBRATING :=
  (C6_calibrate_code_mapping initialCLib 2 4
    ReturnCalibrate.ALREADY_CALIBRATING).mpr (by decide)

/-- C7: on any library state, `unrequestTracking` forwards exactly one
native call (`elUnrequestTracking`), returns no value (`Unit`) and no error
indicator (`Except.ok`; its result type admits no other normal outcome and
the definition produces no error on any input). -/
theorem C7_unrequestTracking_fire_and_forget :
    ∀ (lib : CLib),
      (unrequestTracking lib).2.1 = ["elUnrequestTracking"] ∧
      (unrequestTracking lib).2.2 = Except.ok () := by
  intro lib
  exact ⟨rfl, rfl⟩

end ELApi

/-- C8: the `ELCGazeSample` structure carries exactly the claimed fields —
one `c_int64` microsecond timestamp, one `c_int32` sample index, the four
`ELCPoint2d` point-of-regard fields (raw, filtered, left, right), the two
`ELCPoint3d` eye-position fields (left, right) and the two `c_double`
pupil-radius fields (left, right) — and the point structures are records
of `c_double` components only. -/
theorem C8_gazeSample_field_layout :
    ELCGazeSample_fields.Perm
      [("timestampMicroSec", CType.c_int64),
       ("index", CType.c_int32),
       ("porRaw", CType.elcPoint2d),
       ("porFiltered", CType.elcPoint2d),
       ("porLeft", CType.elcPoint2d),
       ("porRight", CType.elcPoint2d),
       ("eyePositionLeft", CType.elcPoint3d),
       ("eyePositionRight", CType.elcPoint3d),
       ("pupilRadiusLeft", CType.c_double),
       ("pupilRadiusRight", CType.c_double)] ∧
    ELCPoint2d_fields = [("x", CType.c_double), ("y", CType.c_double)] ∧
    ELCPoint3d_fields
      = [("x", CType.c_double), ("y", CType.c_double), ("z", CType.c_double)] := by
  refine ⟨?_, rfl, rfl⟩
  decide

/-- C9: the constructor body calls `elInitApi` but ignores the integer it
returns: for any client name, callbacks and library state, the outcome of
`ELApi.init` is identical for every native result code, and it is a normal
return. -/
theorem C9_init_discards_native_result :
    ∀ (lib : CLib) (name : String) (cbs : Callbacks) (r1 r2 : Int),
      ELApi.init lib (some name) cbs r1 = ELApi.init lib (some name) cbs r2 ∧
      (ELApi.init lib (some name) cbs r1).2.2 = Except.ok () := by
  intro lib name cbs r1 r2
  exact ⟨rfl, rfl⟩

/-- C10: the constructor unconditionally calls `clientName.encode`, so a
`None` client name raises an `AttributeError` (an exception, not a return
code) without any native call being made, whatever the five callback slots
hold (each may be null); for every actual string the constructor returns
normally. -/
theorem C10_clientName_must_be_string :
    ∀ (lib : CLib) (cbs : Callbacks) (r : Int),
      ((ELApi.init lib none cbs r).2.2
        = Except.error
            (PyError.attributeError "NoneType object has no attribute encode")) ∧
      ((ELApi.init lib none cbs r).2.1 = []) ∧
      (∀ (s : String), (ELApi.init lib (some s) cbs r).2.2 = Except.ok ()) := by
  intro lib cbs r
  exact ⟨rfl, rfl, fun s => rfl⟩
